import Mathlib

/-!
Verification of the WeatherApp core (src/Weather.py) against its
natural-language specification.

The embedding models the JSON-derived Python values that flow through the
program as the inductive type `PyVal` (Python `None` is the constructor
`PyVal.none`, since `json` maps JSON null to `None`).  Numbers are modelled
as rationals; the program never computes with them, it only copies them.
Fallible Python expressions (attribute errors, index errors, the
`datetime.utcfromtimestamp` conversion) are modelled in `Except String`,
and the `try/except` block of `extract_required_fields` is the final match
on that `Except` value.  Network effects of the fetcher are modelled by an
environment function giving the outcome of each attempt, and the fetcher
returns a trace recording its result, the number of attempts made, the
backoff sleep durations, and the log lines printed.
-/

/-- A Python value as produced by `response.json()`:
`None`, a string, a number, a dict with string keys, or a list. -/
inductive PyVal where
  | none
  | str (s : String)
  | num (q : ℚ)
  | obj (fields : List (String × PyVal))
  | list (items : List PyVal)

/-- Python truthiness (`if x:`): `None` is falsy, strings/collections are
truthy when nonempty, numbers are truthy when nonzero. -/
def PyVal.truthy : PyVal → Bool
  | .none => false
  | .str s => !s.isEmpty
  | .num q => !(q == 0)
  | .obj fs => !fs.isEmpty
  | .list xs => !xs.isEmpty

/-- The Python identity test `x is None`. -/
def PyVal.isNone : PyVal → Bool
  | .none => true
  | _ => false

/-- Python `v.get(k, d)`: on a dict, the value stored at the key (which may
itself be `None`), or the default `d` when the key is missing; on anything
else an `AttributeError` is raised. -/
def pyGetD : PyVal → String → PyVal → Except String PyVal
  | .obj fs, k, d => Except.ok ((fs.lookup k).getD d)
  | _, _, _ => Except.error "AttributeError: no attribute get"

/-- Python `v.get(k)` (default `None`). -/
def pyGet (v : PyVal) (k : String) : Except String PyVal :=
  pyGetD v k PyVal.none

/-- Python `v[0]`: first element of a list (IndexError when empty), first
character of a string, a `TypeError`/`KeyError` on anything else. -/
def pyIndex0 : PyVal → Except String PyVal
  | .list [] => Except.error "list index out of range"
  | .list (x :: _) => Except.ok x
  | .str s =>
      if s.isEmpty then Except.error "string index out of range"
      else Except.ok (.str (String.mk [s.front]))
  | _ => Except.error "object is not subscriptable"

/-- Python `data[i]` on a list, with negative indices counting from the
end and an `IndexError` when out of range. -/
def pyListIndex (l : List PyVal) (i : Int) : Except String PyVal :=
  let j : Int := if i < 0 then i + l.length else i
  if 0 ≤ j then
    match l.get? j.toNat with
    | some x => Except.ok x
    | Option.none => Except.error "list index out of range"
  else Except.error "list index out of range"

/-- The source chain `item.get(k1, {}).get(k2)`. -/
def pyGetChain (v : PyVal) (k1 k2 : String) : Except String PyVal :=
  match pyGetD v k1 (.obj []) with
  | Except.error e => Except.error e
  | Except.ok w => pyGet w k2

/-- The source chain `item.get(k1, [{}])[0].get(k2)`. -/
def pyGetListChain (v : PyVal) (k1 k2 : String) : Except String PyVal :=
  match pyGetD v k1 (.list [.obj []]) with
  | Except.error e => Except.error e
  | Except.ok w =>
      match pyIndex0 w with
      | Except.error e => Except.error e
      | Except.ok w0 => pyGet w0 k2

/-- Civil date (year, month, day) of a day count relative to 1970-01-01,
proleptic Gregorian (the standard days-to-civil algorithm). -/
def civilFromDays (z0 : Int) : Int × Nat × Nat :=
  let z := z0 + 719468
  let era : Int := Int.fdiv z 146097
  let doe : Nat := (z - era * 146097).toNat
  let yoe : Nat := (doe - doe / 1460 + doe / 36524 - doe / 146096) / 365
  let y : Int := (yoe : Int) + era * 400
  let doy : Nat := doe - (365 * yoe + yoe / 4 - yoe / 100)
  let mp : Nat := (5 * doy + 2) / 153
  let d : Nat := doy - (153 * mp + 2) / 5 + 1
  let m : Nat := if mp < 10 then mp + 3 else mp - 9
  (if m ≤ 2 then y + 1 else y, m, d)

def pad2 (n : Nat) : String :=
  if n < 10 then "0" ++ toString n else toString n

def pad4 (n : Nat) : String :=
  if n < 10 then "000" ++ toString n
  else if n < 100 then "00" ++ toString n
  else if n < 1000 then "0" ++ toString n
  else toString n

/-- `datetime.utcfromtimestamp(s).strftime("%Y-%m-%d %H:%M:%S")` for an
epoch-second count `s`. -/
def epochToUTCString (s : Int) : String :=
  let days := Int.fdiv s 86400
  let sod := (s - days * 86400).toNat
  let ymd := civilFromDays days
  pad4 ymd.1.toNat ++ "-" ++ pad2 ymd.2.1 ++ "-" ++ pad2 ymd.2.2 ++ " " ++
    pad2 (sod / 3600) ++ ":" ++ pad2 (sod % 3600 / 60) ++ ":" ++ pad2 (sod % 60)

/-- Smallest epoch value `datetime` accepts (0001-01-01 00:00:00 UTC). -/
def dtEpochMin : Int := -62135596800

/-- Largest epoch value `datetime` accepts (9999-12-31 23:59:59 UTC). -/
def dtEpochMax : Int := 253402300799

/-- `datetime.utcfromtimestamp(v).strftime("%Y-%m-%d %H:%M:%S")` on a raw
Python value: a `TypeError` on non-numbers (in particular on `None`, the
missing-field case), a range error outside the representable datetime
years, and otherwise the formatted UTC string of `⌊v⌋`. -/
def pyTimestampStr : PyVal → Except String String
  | .num q =>
      if dtEpochMin ≤ ⌊q⌋ ∧ ⌊q⌋ ≤ dtEpochMax then
        Except.ok (epochToUTCString ⌊q⌋)
      else Except.error "timestamp out of range"
  | _ => Except.error "TypeError: an integer is required"

/-- The nine values read by `extract_required_fields` before its presence
check, in source order. -/
structure RawFields where
  city : PyVal
  country : PyVal
  temp : PyVal
  feels_like : PyVal
  weather_main : PyVal
  weather_desc : PyVal
  humidity : PyVal
  wind_speed : PyVal
  ts : String

/-- The body of the `try:` block of `extract_required_fields`, line by line
in source order; the first raising expression aborts the whole block. -/
def extractFields (data : List PyVal) (city_idx : Int) : Except String RawFields :=
  match pyListIndex data city_idx with
  | Except.error e => Except.error e
  | Except.ok item =>
  match pyGet item "name" with
  | Except.error e => Except.error e
  | Except.ok city =>
  match pyGetChain item "sys" "country" with
  | Except.error e => Except.error e
  | Except.ok country =>
  match pyGetChain item "main" "temp" with
  | Except.error e => Except.error e
  | Except.ok temp =>
  match pyGetChain item "main" "feels_like" with
  | Except.error e => Except.error e
  | Except.ok feels =>
  match pyGetListChain item "weather" "main" with
  | Except.error e => Except.error e
  | Except.ok wmain =>
  match pyGetListChain item "weather" "description" with
  | Except.error e => Except.error e
  | Except.ok wdesc =>
  match pyGetChain item "main" "humidity" with
  | Except.error e => Except.error e
  | Except.ok hum =>
  match pyGetChain item "wind" "speed" with
  | Except.error e => Except.error e
  | Except.ok wind =>
  match pyGet item "dt" with
  | Except.error e => Except.error e
  | Except.ok dtv =>
  match pyTimestampStr dtv with
  | Except.error e => Except.error e
  | Except.ok ts =>
    Except.ok ⟨city, country, temp, feels, wmain, wdesc, hum, wind, ts⟩

/-- The flat record built by `extract_required_fields`. -/
structure WeatherRecord where
  city : PyVal
  country : PyVal
  temp_celsius : PyVal
  feels_like_celsius : PyVal
  weather_main : PyVal
  weather_desc : PyVal
  humidity : PyVal
  wind_speed : PyVal
  timestamp_utc : String

/-- Result of one call to `extract_required_fields`: the optional record
(`None` in Python when extraction fails or required data is missing) and
the log lines printed during the call. -/
structure ExtractResult where
  record : Option WeatherRecord
  log : List String

/-- The skip message printed when a required field is missing. -/
def missingMsg (city_idx : Int) : String :=
  "Missing essential data for index " ++ toString city_idx ++
    ". Skipping printing that is why"

/-- The message printed by the `except` handler (Python `print` with two
arguments inserts a separating space). -/
def couldNotMsg (e : String) : String :=
  "Couldn\x27t extract the required fields - " ++ " " ++ e

/-- `extract_required_fields(data, city_idx)` from src/Weather.py: runs the
`try:` block, then the presence check
`if city and country and temp_celsius is not None:`. -/
def extract_required_fields (data : List PyVal) (city_idx : Int) : ExtractResult :=
  match extractFields data city_idx with
  | Except.ok f =>
      if f.city.truthy && f.country.truthy && !f.temp.isNone then
        { record := some
            { city := f.city, country := f.country, temp_celsius := f.temp,
              feels_like_celsius := f.feels_like,
              weather_main := f.weather_main, weather_desc := f.weather_desc,
              humidity := f.humidity, wind_speed := f.wind_speed,
              timestamp_utc := f.ts },
          log := [] }
      else { record := Option.none, log := [missingMsg city_idx] }
  | Except.error e => { record := Option.none, log := [couldNotMsg e] }


/-- Outcome of one `requests.get` attempt: an HTTP response with a status
code, parsed JSON body and raw text, or a network-level exception
(`requests.RequestException`, which also covers `Timeout` and
`ConnectionError`) carrying its message. -/
inductive HttpResponse where
  | resp (status : Nat) (body : PyVal) (text : String)
  | netError (msg : String)

/-- Observable trace of one call to `fetch_raw_weather_data_for_city`:
the returned value, how many `requests.get` attempts were made, the
`time.sleep` durations in order, the log lines printed, and whether the
`for` loop ran to exhaustion (reaching the final failure print). -/
structure FetchTrace where
  result : Option PyVal
  attemptsMade : Nat
  sleeps : List ℚ
  log : List String
  exhausted : Bool

def cityNotFoundMsg (city : String) : String :=
  "City \x27" ++ city ++ "\x27 not found. Skipping."

def invalidKeyMsg : String :=
  "Invalid API key. Please check your .env file."

def unexpectedStatusMsg (status : Nat) (city : String) (text : String) : String :=
  "Unexpected status code " ++ toString status ++ " for city \x27" ++ city ++
    "\x27. Response: " ++ text

/-- `print("Threw an Execption ", str(e))` (the separator adds a space). -/
def threwMsg (e : String) : String :=
  "Threw an Execption " ++ " " ++ e

def failedMsg (city : String) (retries : Nat) : String :=
  "Failed to fetch data for city \x27" ++ city ++ "\x27 after " ++
    toString retries ++ " attempts."

/-- The `for attempt in range(retries)` loop of
`fetch_raw_weather_data_for_city`, starting at attempt index `attempt`
with `fuel` iterations left.  A 200 response returns its body; 404, 401
and any other status print and return `None` at once; a network
exception prints, sleeps `backoff * 2 ^ attempt`, and goes to the next
iteration.  `exhausted` is true when the loop ran out of iterations. -/
def fetchGo (city : String) (responses : Nat → HttpResponse) (backoff : ℚ) :
    Nat → Nat → FetchTrace
  | _, 0 =>
      { result := Option.none, attemptsMade := 0, sleeps := [], log := [],
        exhausted := true }
  | attempt, fuel + 1 =>
      match responses attempt with
      | .resp status body text =>
          if status = 200 then
            { result := some body, attemptsMade := 1, sleeps := [], log := [],
              exhausted := false }
          else if status = 404 then
            { result := Option.none, attemptsMade := 1, sleeps := [],
              log := [cityNotFoundMsg city], exhausted := false }
          else if status = 401 then
            { result := Option.none, attemptsMade := 1, sleeps := [],
              log := [invalidKeyMsg], exhausted := false }
          else
            { result := Option.none, attemptsMade := 1, sleeps := [],
              log := [unexpectedStatusMsg status city text], exhausted := false }
      | .netError e =>
          let rest := fetchGo city responses backoff (attempt + 1) fuel
          { result := rest.result, attemptsMade := rest.attemptsMade + 1,
            sleeps := backoff * 2 ^ attempt :: rest.sleeps,
            log := threwMsg e :: rest.log, exhausted := rest.exhausted }

/-- `fetch_raw_weather_data_for_city(city, api_key, retries, backoff_factor)`
from src/Weather.py.  The network is modelled by `responses`, giving the
outcome of each attempt; `api_key` only enters the request parameters.
When the loop exhausts its attempts the final failure message is printed. -/
def fetch_raw_weather_data_for_city (city : String) (api_key : String)
    (responses : Nat → HttpResponse) (retries : Nat) (backoff : ℚ) : FetchTrace :=
  let t := fetchGo city responses backoff 0 retries
  if t.exhausted then { t with log := t.log ++ [failedMsg city retries] } else t

def apiKeyNotFoundMsg : String :=
  "API key not found, please add api key in your .env file"

/-- Observable outcome of `get_weather_data`: the accumulated raw
responses, the log lines, and how many calls to the fetcher were made. -/
structure RunResult where
  results : List PyVal
  log : List String
  fetchCalls : Nat

/-- The `for city in cities:` loop of `get_weather_data`: fetch each city
with the default `retries=3, backoff_factor=0.3` and append truthy
results (`if data:`). -/
def runCities (api_key : String) (responses : String → Nat → HttpResponse) :
    List String → RunResult
  | [] => { results := [], log := [], fetchCalls := 0 }
  | c :: rest =>
      let t := fetch_raw_weather_data_for_city c api_key (responses c) 3 (3 / 10)
      let r := runCities api_key responses rest
      { results :=
          match t.result with
          | some d => if d.truthy then d :: r.results else r.results
          | Option.none => r.results,
        log := t.log ++ r.log,
        fetchCalls := r.fetchCalls + 1 }

/-- `get_weather_data(cities)` from src/Weather.py.  The environment-style
credential store is modelled by the optional `api_key` (`os.getenv`
returns `None` when `API_KEY` is absent); `if not api_key:` also treats
an empty string as missing. -/
def get_weather_data (cities : List String) (api_key : Option String)
    (responses : String → Nat → HttpResponse) : RunResult :=
  match api_key with
  | Option.none =>
      { results := [], log := [apiKeyNotFoundMsg], fetchCalls := 0 }
  | some k =>
      if k.isEmpty then
        { results := [], log := [apiKeyNotFoundMsg], fetchCalls := 0 }
      else runCities k responses cities

/-- The raw Seattle observation of the concrete example in the spec. -/
def seattleObs : PyVal :=
  .obj [("name", .str "Seattle"),
        ("sys", .obj [("country", .str "US")]),
        ("main", .obj [("temp", .num 15), ("feels_like", .num 14),
                       ("humidity", .num 70)]),
        ("weather", .list [.obj [("main", .str "Clouds"),
                                 ("description", .str "overcast clouds")]]),
        ("wind", .obj [("speed", .num (31 / 10))]),
        ("dt", .num 1700000000)]

/-- Claim C3: on the concrete Seattle observation, extraction produces
exactly the record with city "Seattle", country "US", temp 15.0,
feels-like 14.0, weather "Clouds"/"overcast clouds", humidity 70, wind
speed 3.1, and the UTC timestamp string "2023-11-14 22:13:20". -/
theorem claim_C3_seattle_example :
    extract_required_fields [seattleObs] 0 =
      { record := some
          { city := .str "Seattle", country := .str "US",
            temp_celsius := .num 15, feels_like_celsius := .num 14,
            weather_main := .str "Clouds",
            weather_desc := .str "overcast clouds",
            humidity := .num 70, wind_speed := .num (31 / 10),
            timestamp_utc := "2023-11-14 22:13:20" },
        log := [] } := by
  rfl

lemma PyVal.isNone_eq_false_iff (v : PyVal) : v.isNone = false ↔ v ≠ PyVal.none := by
  cases v <;> simp [PyVal.isNone]

lemma PyVal.truthy_ne_none (v : PyVal) (h : v.truthy = true) : v ≠ PyVal.none := by
  cases v <;> simp_all [PyVal.truthy]

lemma pyTimestampStr_ok_inv (v : PyVal) (s : String)
    (h : pyTimestampStr v = Except.ok s) :
    ∃ q : ℚ, v = PyVal.num q ∧ dtEpochMin ≤ ⌊q⌋ ∧ ⌊q⌋ ≤ dtEpochMax ∧
      s = epochToUTCString ⌊q⌋ := by
  cases v with
  | num q =>
      refine ⟨q, rfl, ?_⟩
      simp only [pyTimestampStr] at h
      split at h
      next hc => exact ⟨hc.1, hc.2, (Except.ok.inj h).symm⟩
      next => exact Except.noConfusion h
  | none => exact Except.noConfusion h
  | str s => exact Except.noConfusion h
  | obj fs => exact Except.noConfusion h
  | list xs => exact Except.noConfusion h

/-- Inverting a successful run of the `try:` block: the indexed item
exists, its `dt` field is a number in the representable range, and the
recorded timestamp string is its UTC rendering. -/
lemma extractFields_ok_inv (data : List PyVal) (idx : Int) (f : RawFields)
    (h : extractFields data idx = Except.ok f) :
    ∃ item, pyListIndex data idx = Except.ok item ∧
      ∃ q : ℚ, pyGet item "dt" = Except.ok (PyVal.num q) ∧
        dtEpochMin ≤ ⌊q⌋ ∧ ⌊q⌋ ≤ dtEpochMax ∧ f.ts = epochToUTCString ⌊q⌋ := by
  unfold extractFields at h
  split at h
  next => exact Except.noConfusion h
  next item hitem =>
  split at h
  next => exact Except.noConfusion h
  next city hcity =>
  split at h
  next => exact Except.noConfusion h
  next country hcountry =>
  split at h
  next => exact Except.noConfusion h
  next temp htemp =>
  split at h
  next => exact Except.noConfusion h
  next feels hfeels =>
  split at h
  next => exact Except.noConfusion h
  next wmain hwmain =>
  split at h
  next => exact Except.noConfusion h
  next wdesc hwdesc =>
  split at h
  next => exact Except.noConfusion h
  next hum hhum =>
  split at h
  next => exact Except.noConfusion h
  next wind hwind =>
  split at h
  next => exact Except.noConfusion h
  next dtv hdtv =>
  split at h
  next => exact Except.noConfusion h
  next ts hts =>
  obtain ⟨q, hv, h1, h2, h3⟩ := pyTimestampStr_ok_inv dtv ts hts
  subst hv
  refine ⟨item, hitem, q, hdtv, h1, h2, ?_⟩
  injection h with h
  subst h
  exact h3

/-- An observation whose city name, country and temperature are all
present and non-null, but whose `dt` timestamp field is missing. -/
def obsNoDt : PyVal :=
  .obj [("name", .str "Seattle"),
        ("sys", .obj [("country", .str "US")]),
        ("main", .obj [("temp", .num 15)])]

/-- Claim C1 is false as stated: on this observation the city name,
country and temperature are all present and non-null, yet
`extract_required_fields` returns Absent for the whole record (the
missing `dt` field makes the timestamp conversion raise before the
presence check is reached). -/
theorem claim_C1_counterexample :
    pyGet obsNoDt "name" = Except.ok (.str "Seattle") ∧
    pyGetChain obsNoDt "sys" "country" = Except.ok (.str "US") ∧
    pyGetChain obsNoDt "main" "temp" = Except.ok (.num 15) ∧
    (extract_required_fields [obsNoDt] 0).record = Option.none :=
  ⟨rfl, rfl, rfl, rfl⟩

/-- Claim C1 (amended): when the `try:` block completes without raising
(index in range, nested lookups well typed, `dt` a valid timestamp —
otherwise the record is Absent), `extract_required_fields` returns a
record iff the extracted city and country are truthy and the extracted
temperature is non-null; when that check fails it logs the skip message
and returns Absent; and every record it returns has non-null city,
country and temperature. -/
theorem claim_C1_presence_check (data : List PyVal) (idx : Int) (f : RawFields)
    (hf : extractFields data idx = Except.ok f) :
    ((extract_required_fields data idx).record.isSome = true ↔
        (f.city.truthy = true ∧ f.country.truthy = true ∧ f.temp ≠ PyVal.none))
      ∧ (∀ r, (extract_required_fields data idx).record = some r →
          r.city ≠ PyVal.none ∧ r.country ≠ PyVal.none ∧
            r.temp_celsius ≠ PyVal.none)
      ∧ (¬(f.city.truthy = true ∧ f.country.truthy = true ∧ f.temp ≠ PyVal.none) →
          extract_required_fields data idx =
            { record := Option.none, log := [missingMsg idx] }) := by
  have hcond : (f.city.truthy && f.country.truthy && !f.temp.isNone) = true ↔
      (f.city.truthy = true ∧ f.country.truthy = true ∧ f.temp ≠ PyVal.none) := by
    rw [Bool.and_eq_true, Bool.and_eq_true, Bool.not_eq_true',
      PyVal.isNone_eq_false_iff, and_assoc]
  cases hb : (f.city.truthy && f.country.truthy && !f.temp.isNone) with
  | true =>
      obtain ⟨h1, h2, h3⟩ := hcond.mp hb
      refine ⟨?_, ?_, ?_⟩
      · simp only [extract_required_fields, hf, hb]
        simp [h1, h2, h3]
      · intro r hr
        simp only [extract_required_fields, hf, hb, if_true] at hr
        obtain rfl := (Option.some.inj hr).symm
        exact ⟨PyVal.truthy_ne_none _ h1, PyVal.truthy_ne_none _ h2, h3⟩
      · intro hcon
        exact absurd ⟨h1, h2, h3⟩ hcon
  | false =>
      refine ⟨?_, ?_, ?_⟩
      · simp only [extract_required_fields, hf, hb]
        simp only [Bool.false_eq_true, if_false, Option.isSome_none]
        constructor
        · intro hcon
          exact absurd hcon (by simp)
        · intro hcon
          exact absurd (hcond.mpr hcon) (by simp [hb])
      · intro r hr
        simp only [extract_required_fields, hf, hb, Bool.false_eq_true,
          if_false] at hr
        exact Option.noConfusion hr
      · intro _
        simp only [extract_required_fields, hf, hb, Bool.false_eq_true, if_false]

/-- Witness for the amended claim C1 at the concrete Seattle observation. -/
theorem claim_C1_presence_check_witness :
    (extract_required_fields [seattleObs] 0).record.isSome = true :=
  (claim_C1_presence_check [seattleObs] 0
      ⟨.str "Seattle", .str "US", .num 15, .num 14, .str "Clouds",
        .str "overcast clouds", .num 70, .num (31 / 10),
        "2023-11-14 22:13:20"⟩ rfl).1.mpr
    ⟨rfl, rfl, by simp⟩

/-- The `dt` field of an observation is present and a valid epoch-seconds
value (a number whose floor lies in the range `datetime` accepts). -/
def dtValid (item : PyVal) : Prop :=
  ∃ q : ℚ, pyGet item "dt" = Except.ok (PyVal.num q) ∧
    dtEpochMin ≤ ⌊q⌋ ∧ ⌊q⌋ ≤ dtEpochMax

/-- Claim C4: for an observation at an in-range index, if its `dt` field
is missing or malformed then extraction returns Absent for the whole
record and logs the cause; and whenever a record is returned, its
`timestamp_utc` is the UTC-formatted string of the `dt` instant. -/
theorem claim_C4_timestamp (data : List PyVal) (idx : Int) (item : PyVal)
    (h : pyListIndex data idx = Except.ok item) :
    (¬ dtValid item →
        (extract_required_fields data idx).record = Option.none ∧
        ∃ e, (extract_required_fields data idx).log = [couldNotMsg e])
      ∧ (∀ r, (extract_required_fields data idx).record = some r →
          ∃ q : ℚ, pyGet item "dt" = Except.ok (PyVal.num q) ∧
            r.timestamp_utc = epochToUTCString ⌊q⌋) := by
  constructor
  · intro hbad
    cases hef : extractFields data idx with
    | ok f =>
        exfalso
        obtain ⟨item0, hitem0, q, hdt, h1, h2, -⟩ :=
          extractFields_ok_inv data idx f hef
        rw [h] at hitem0
        cases Except.ok.inj hitem0
        exact hbad ⟨q, hdt, h1, h2⟩
    | error e =>
        simp only [extract_required_fields, hef]
        exact ⟨trivial, e, rfl⟩
  · intro r hr
    cases hef : extractFields data idx with
    | ok f =>
        obtain ⟨item0, hitem0, q, hdt, -, -, hts⟩ :=
          extractFields_ok_inv data idx f hef
        rw [h] at hitem0
        cases Except.ok.inj hitem0
        refine ⟨q, hdt, ?_⟩
        simp only [extract_required_fields, hef] at hr
        split at hr
        · cases Option.some.inj hr
          exact hts
        · exact Option.noConfusion hr
    | error e =>
        simp only [extract_required_fields, hef] at hr
        exact Option.noConfusion hr

/-- Witness for claim C4 at the concrete observation with `dt` missing:
extraction returns Absent for the whole record. -/
theorem claim_C4_timestamp_witness :
    (extract_required_fields [obsNoDt] 0).record = Option.none :=
  ((claim_C4_timestamp [obsNoDt] 0 obsNoDt rfl).1 (by
      rintro ⟨q, hq, -⟩
      rw [show pyGet obsNoDt "dt" = Except.ok PyVal.none from rfl] at hq
      exact absurd (Except.ok.inj hq) (by simp))).1

/-- Claim C6: for an observation whose nested containers (`sys`, `main`,
`wind` dicts, `weather` list of dicts) are each either present or missing
entirely, and whose `dt` is valid, the `try:` block never raises: every
nested lookup whose field is missing yields `None` for that field alone
(via `.get` defaults), and the remaining fields are extracted intact. -/
theorem claim_C6_defensive_lookups (fs g m w d : List (String × PyVal))
    (rest : List PyVal) (q : ℚ)
    (hsys : fs.lookup "sys" = some (PyVal.obj g) ∨
      (fs.lookup "sys" = Option.none ∧ g = []))
    (hmain : fs.lookup "main" = some (PyVal.obj m) ∨
      (fs.lookup "main" = Option.none ∧ m = []))
    (hweather : fs.lookup "weather" = some (PyVal.list (PyVal.obj w :: rest)) ∨
      (fs.lookup "weather" = Option.none ∧ w = []))
    (hwind : fs.lookup "wind" = some (PyVal.obj d) ∨
      (fs.lookup "wind" = Option.none ∧ d = []))
    (hdt : fs.lookup "dt" = some (PyVal.num q))
    (hq1 : dtEpochMin ≤ ⌊q⌋) (hq2 : ⌊q⌋ ≤ dtEpochMax) :
    extractFields [PyVal.obj fs] 0 = Except.ok
      { city := (fs.lookup "name").getD PyVal.none,
        country := (g.lookup "country").getD PyVal.none,
        temp := (m.lookup "temp").getD PyVal.none,
        feels_like := (m.lookup "feels_like").getD PyVal.none,
        weather_main := (w.lookup "main").getD PyVal.none,
        weather_desc := (w.lookup "description").getD PyVal.none,
        humidity := (m.lookup "humidity").getD PyVal.none,
        wind_speed := (d.lookup "speed").getD PyVal.none,
        ts := epochToUTCString ⌊q⌋ } := by
  have hitem : pyListIndex [PyVal.obj fs] 0 = Except.ok (PyVal.obj fs) := rfl
  rcases hsys with hsys | ⟨hsys, rfl⟩ <;>
  rcases hmain with hmain | ⟨hmain, rfl⟩ <;>
  rcases hweather with hweather | ⟨hweather, rfl⟩ <;>
  rcases hwind with hwind | ⟨hwind, rfl⟩ <;>
    simp [extractFields, hitem, pyGet, pyGetD, pyGetChain, pyGetListChain,
      pyIndex0, pyTimestampStr, hsys, hmain, hweather, hwind, hdt, hq1, hq2]

/-- An observation with only the required fields and `dt`; all optional
nested fields are missing. -/
def parisObsFields : List (String × PyVal) :=
  [("name", .str "Paris"), ("sys", .obj [("country", .str "FR")]),
   ("main", .obj [("temp", .num 10)]), ("dt", .num 1700000000)]

/-- Witness for claim C6: the observation with every optional field
missing extracts without raising, each missing field coming out `None`. -/
theorem claim_C6_defensive_lookups_witness :
    extractFields [PyVal.obj parisObsFields] 0 = Except.ok
      { city := .str "Paris", country := .str "FR", temp := .num 10,
        feels_like := PyVal.none, weather_main := PyVal.none,
        weather_desc := PyVal.none, humidity := PyVal.none,
        wind_speed := PyVal.none, ts := "2023-11-14 22:13:20" } :=
  claim_C6_defensive_lookups parisObsFields [("country", .str "FR")]
    [("temp", .num 10)] [] [] [] 1700000000
    (Or.inl rfl) (Or.inl rfl) (Or.inr ⟨rfl, rfl⟩) (Or.inr ⟨rfl, rfl⟩)
    rfl (by decide) (by decide)

/-- When every remaining attempt raises a network-level exception, the
retry loop makes exactly `fuel` attempts, sleeping
`backoff * 2 ^ attemptIndex` after each, and exhausts. -/
lemma fetchGo_allNetError (city : String) (responses : Nat → HttpResponse)
    (backoff : ℚ) :
    ∀ fuel a,
      (∀ i, i < fuel → ∃ e, responses (a + i) = HttpResponse.netError e) →
      ∃ msgs, fetchGo city responses backoff a fuel =
        { result := Option.none, attemptsMade := fuel,
          sleeps := (List.range fuel).map (fun i => backoff * 2 ^ (a + i)),
          log := msgs, exhausted := true }
  | 0, a, _ => ⟨[], rfl⟩
  | fuel + 1, a, h => by
      obtain ⟨e, he⟩ := by simpa using h 0 (Nat.succ_pos fuel)
      obtain ⟨msgs, ih⟩ := fetchGo_allNetError city responses backoff fuel (a + 1)
        (fun i hi => by
          obtain ⟨e2, he2⟩ := h (i + 1) (Nat.succ_lt_succ hi)
          exact ⟨e2, by rw [Nat.add_right_comm]; exact he2⟩)
      refine ⟨threwMsg e :: msgs, ?_⟩
      simp only [fetchGo, he, ih]
      refine FetchTrace.mk.injEq .. |>.mpr ⟨rfl, rfl, ?_, rfl, rfl⟩
      rw [List.range_succ_eq_map, List.map_cons, List.map_map]
      refine congrArg₂ _ (by rw [Nat.add_zero]) ?_
      refine List.map_congr_left (fun i _ => ?_)
      simp only [Function.comp_apply]
      rw [show a + 1 + i = a + (i + 1) from by omega]

/-- Claim C2: when every attempt raises a network-level failure, the
fetcher makes exactly `retries` attempts, sleeps
`backoff * 2 ^ attemptIndex` seconds after the failures (so
`backoff * 1, backoff * 2, backoff * 4` for three retries), logs the
final failure message last, and returns Absent. -/
theorem claim_C2_retry_backoff (city api_key : String)
    (responses : Nat → HttpResponse) (retries : Nat) (backoff : ℚ)
    (h : ∀ i, i < retries → ∃ e, responses i = HttpResponse.netError e) :
    (fetch_raw_weather_data_for_city city api_key responses retries
        backoff).result = Option.none ∧
    (fetch_raw_weather_data_for_city city api_key responses retries
        backoff).attemptsMade = retries ∧
    (fetch_raw_weather_data_for_city city api_key responses retries
        backoff).sleeps = (List.range retries).map (fun i => backoff * 2 ^ i) ∧
    ∃ pre, (fetch_raw_weather_data_for_city city api_key responses retries
        backoff).log = pre ++ [failedMsg city retries] := by
  obtain ⟨msgs, hgo⟩ := fetchGo_allNetError city responses backoff retries 0
    (fun i hi => by simpa using h i hi)
  unfold fetch_raw_weather_data_for_city
  rw [hgo]
  simp only [Nat.zero_add]
  exact ⟨rfl, rfl, rfl, msgs, rfl⟩

/-- Witness for claim C2 with three attempts all failing at the network
level and the default backoff factor 0.3. -/
theorem claim_C2_retry_backoff_witness :
    (fetch_raw_weather_data_for_city "Seattle" "k"
        (fun _ => HttpResponse.netError "boom") 3 (3 / 10)).attemptsMade = 3 ∧
    (fetch_raw_weather_data_for_city "Seattle" "k"
        (fun _ => HttpResponse.netError "boom") 3 (3 / 10)).sleeps
      = (List.range 3).map (fun i => (3 / 10 : ℚ) * 2 ^ i) ∧
    (fetch_raw_weather_data_for_city "Seattle" "k"
        (fun _ => HttpResponse.netError "boom") 3 (3 / 10)).result
      = Option.none := by
  have main := claim_C2_retry_backoff "Seattle" "k"
    (fun _ => HttpResponse.netError "boom") 3 (3 / 10)
    (fun i _ => ⟨"boom", rfl⟩)
  exact ⟨main.2.1, main.2.2.1, main.1⟩

/-- An HTTP response (any status) ends the loop on that attempt: exactly
one attempt is made by the remaining loop. -/
lemma fetchGo_resp_attempts (city : String) (responses : Nat → HttpResponse)
    (backoff : ℚ) (a fuel : Nat) (status : Nat) (body : PyVal) (text : String)
    (hr : responses a = HttpResponse.resp status body text) :
    (fetchGo city responses backoff a (fuel + 1)).attemptsMade = 1 := by
  simp only [fetchGo, hr]
  split_ifs <;> rfl

/-- Every attempt that was followed by another attempt raised a
network-level exception: HTTP responses are never retried. -/
lemma fetchGo_retried_only_netError (city : String)
    (responses : Nat → HttpResponse) (backoff : ℚ) :
    ∀ fuel a i,
      i + 1 < (fetchGo city responses backoff a fuel).attemptsMade →
      ∃ e, responses (a + i) = HttpResponse.netError e
  | 0, a, i, h => by simp [fetchGo] at h
  | fuel + 1, a, i, h => by
      cases hr : responses a with
      | resp status body text =>
          rw [fetchGo_resp_attempts city responses backoff a fuel status body
            text hr] at h
          omega
      | netError e =>
          simp only [fetchGo, hr] at h
          cases i with
          | zero => exact ⟨e, by simpa using hr⟩
          | succ j =>
              obtain ⟨e2, he2⟩ := fetchGo_retried_only_netError city responses
                backoff fuel (a + 1) j (by omega)
              refine ⟨e2, ?_⟩
              rw [show a + (j + 1) = a + 1 + j from by omega]
              exact he2

/-- A non-200 HTTP response on an attempt produces an immediate `None`
with a diagnostic, no sleep, and no loop exhaustion. -/
lemma fetchGo_resp_first (city : String) (responses : Nat → HttpResponse)
    (backoff : ℚ) (a fuel : Nat) (status : Nat) (body : PyVal) (text : String)
    (hr : responses a = HttpResponse.resp status body text)
    (hs : status ≠ 200) :
    (fetchGo city responses backoff a (fuel + 1)).result = Option.none ∧
    (fetchGo city responses backoff a (fuel + 1)).attemptsMade = 1 ∧
    (fetchGo city responses backoff a (fuel + 1)).sleeps = [] ∧
    (fetchGo city responses backoff a (fuel + 1)).log ≠ [] ∧
    (fetchGo city responses backoff a (fuel + 1)).exhausted = false := by
  simp only [fetchGo, hr]
  split_ifs <;> simp_all

/-- Claim C5: an HTTP-level error status (404, 401, or any other non-200
code) on the first attempt makes the fetcher log a diagnostic and return
Absent after exactly one attempt, with no retries and no backoff sleeps;
and, in general, only attempts that raised network-level exceptions are
ever followed by another attempt. -/
theorem claim_C5_http_terminal (city api_key : String)
    (responses : Nat → HttpResponse) (retries : Nat) (backoff : ℚ)
    (status : Nat) (body : PyVal) (text : String)
    (hret : 1 ≤ retries)
    (h0 : responses 0 = HttpResponse.resp status body text)
    (hs : status ≠ 200) :
    (fetch_raw_weather_data_for_city city api_key responses retries
        backoff).result = Option.none ∧
    (fetch_raw_weather_data_for_city city api_key responses retries
        backoff).attemptsMade = 1 ∧
    (fetch_raw_weather_data_for_city city api_key responses retries
        backoff).sleeps = [] ∧
    (fetch_raw_weather_data_for_city city api_key responses retries
        backoff).log ≠ [] ∧
    (∀ (responses2 : Nat → HttpResponse) (retries2 : Nat) (i : Nat),
        i + 1 < (fetch_raw_weather_data_for_city city api_key responses2
          retries2 backoff).attemptsMade →
        ∃ e, responses2 i = HttpResponse.netError e) := by
  have hatt : ∀ (responses2 : Nat → HttpResponse) (retries2 : Nat),
      (fetch_raw_weather_data_for_city city api_key responses2 retries2
        backoff).attemptsMade
        = (fetchGo city responses2 backoff 0 retries2).attemptsMade := by
    intro responses2 retries2
    cases hex : (fetchGo city responses2 backoff 0 retries2).exhausted <;>
      simp [fetch_raw_weather_data_for_city, hex]
  obtain ⟨fuel, rfl⟩ : ∃ fuel, retries = fuel + 1 := ⟨retries - 1, by omega⟩
  obtain ⟨b1, b2, b3, b4, b5⟩ := fetchGo_resp_first city responses backoff 0
    fuel status body text h0 hs
  have hwrap : fetch_raw_weather_data_for_city city api_key responses
      (fuel + 1) backoff = fetchGo city responses backoff 0 (fuel + 1) := by
    simp [fetch_raw_weather_data_for_city, b5]
  rw [hwrap]
  refine ⟨b1, b2, b3, b4, ?_⟩
  intro responses2 retries2 i hi
  rw [hatt responses2 retries2] at hi
  simpa using fetchGo_retried_only_netError city responses2 backoff retries2 0
    i hi

/-- Witness for claim C5 at a simulated 404 response. -/
theorem claim_C5_http_terminal_witness :
    (fetch_raw_weather_data_for_city "Atlantis" "k"
        (fun _ => HttpResponse.resp 404 (PyVal.obj []) "") 3 (3 / 10)).result
      = Option.none ∧
    (fetch_raw_weather_data_for_city "Atlantis" "k"
        (fun _ => HttpResponse.resp 404 (PyVal.obj []) "") 3
        (3 / 10)).attemptsMade = 1 ∧
    (fetch_raw_weather_data_for_city "Atlantis" "k"
        (fun _ => HttpResponse.resp 404 (PyVal.obj []) "") 3 (3 / 10)).sleeps
      = [] := by
  have main := claim_C5_http_terminal "Atlantis" "k"
    (fun _ => HttpResponse.resp 404 (PyVal.obj []) "") 3 (3 / 10) 404
    (PyVal.obj []) "" (by decide) rfl (by decide)
  exact ⟨main.1, main.2.1, main.2.2.1⟩

/-- Claim C10: with `retries = 0` the loop body never runs: zero request
attempts, zero sleeps, the final failure message is logged, and `None`
is returned. -/
theorem claim_C10_zero_retries (city api_key : String)
    (responses : Nat → HttpResponse) (backoff : ℚ) :
    (fetch_raw_weather_data_for_city city api_key responses 0
        backoff).result = Option.none ∧
    (fetch_raw_weather_data_for_city city api_key responses 0
        backoff).attemptsMade = 0 ∧
    (fetch_raw_weather_data_for_city city api_key responses 0
        backoff).sleeps = [] ∧
    (fetch_raw_weather_data_for_city city api_key responses 0
        backoff).log = [failedMsg city 0] :=
  ⟨rfl, rfl, rfl, rfl⟩

/-- Claim C7: when the `API_KEY` credential is absent from the
environment store, the run logs the missing-credential message exactly
once and returns an empty result list, performing no fetch for any city. -/
theorem claim_C7_missing_api_key (cities : List String)
    (responses : String → Nat → HttpResponse) :
    get_weather_data cities Option.none responses =
      { results := [], log := [apiKeyNotFoundMsg], fetchCalls := 0 } :=
  rfl

/-- Claim C8: for every index that is out of range for the observation
sequence (in Python terms, `idx >= len(data)` or `idx < -len(data)`,
which covers every index on the empty sequence), extraction catches the
`IndexError` and returns Absent with a diagnostic instead of raising. -/
theorem claim_C8_index_out_of_range (data : List PyVal) (idx : Int)
    (h : (data.length : Int) ≤ idx ∨ idx < -(data.length : Int)) :
    (extract_required_fields data idx).record = Option.none ∧
    ∃ e, (extract_required_fields data idx).log = [couldNotMsg e] := by
  have hidx : pyListIndex data idx = Except.error "list index out of range" := by
    simp only [pyListIndex]
    rcases h with h | h
    · rw [if_neg (show ¬ idx < 0 by omega), if_pos (show (0 : Int) ≤ idx by omega)]
      have hnone : data.get? idx.toNat = Option.none := by
        rw [List.get?_eq_none]
        omega
      rw [hnone]
    · rw [if_pos (show idx < 0 by omega),
        if_neg (show ¬ (0 : Int) ≤ idx + (data.length : Int) by omega)]
  have hef : extractFields data idx = Except.error "list index out of range" := by
    unfold extractFields
    rw [hidx]
  have hrec : extract_required_fields data idx =
      { record := Option.none,
        log := [couldNotMsg "list index out of range"] } := by
    unfold extract_required_fields
    rw [hef]
  exact ⟨by rw [hrec], "list index out of range", by rw [hrec]⟩

/-- Witness for claim C8: index 0 on the empty observation sequence. -/
theorem claim_C8_index_out_of_range_witness :
    (extract_required_fields [] 0).record = Option.none :=
  (claim_C8_index_out_of_range [] 0 (Or.inl (by decide))).1

/-- State-passing variant of list indexing for the frame claim: the
observation store is threaded through every evaluated expression, and a
read returns it unchanged. -/
def pyListIndexST (st : List PyVal) (i : Int) :
    Except String PyVal × List PyVal :=
  (pyListIndex st i, st)

/-- State-passing `.get(k)`: a read-only operation on the store. -/
def pyGetST (st : List PyVal) (v : PyVal) (k : String) :
    Except String PyVal × List PyVal :=
  (pyGet v k, st)

/-- State-passing `.get(k1, {}).get(k2)`. -/
def pyGetChainST (st : List PyVal) (v : PyVal) (k1 k2 : String) :
    Except String PyVal × List PyVal :=
  (pyGetChain v k1 k2, st)

/-- State-passing `.get(k1, [{}])[0].get(k2)`. -/
def pyGetListChainST (st : List PyVal) (v : PyVal) (k1 k2 : String) :
    Except String PyVal × List PyVal :=
  (pyGetListChain v k1 k2, st)

/-- State-passing timestamp conversion (pure in the store). -/
def pyTimestampStrST (st : List PyVal) (v : PyVal) :
    Except String String × List PyVal :=
  (pyTimestampStr v, st)

/-- The `try:` block with the observation store threaded explicitly
through each evaluated expression, in source order. -/
def extractFieldsST (st0 : List PyVal) (city_idx : Int) :
    Except String RawFields × List PyVal :=
  match pyListIndexST st0 city_idx with
  | (Except.error e, st1) => (Except.error e, st1)
  | (Except.ok item, st1) =>
  match pyGetST st1 item "name" with
  | (Except.error e, st2) => (Except.error e, st2)
  | (Except.ok city, st2) =>
  match pyGetChainST st2 item "sys" "country" with
  | (Except.error e, st3) => (Except.error e, st3)
  | (Except.ok country, st3) =>
  match pyGetChainST st3 item "main" "temp" with
  | (Except.error e, st4) => (Except.error e, st4)
  | (Except.ok temp, st4) =>
  match pyGetChainST st4 item "main" "feels_like" with
  | (Except.error e, st5) => (Except.error e, st5)
  | (Except.ok feels, st5) =>
  match pyGetListChainST st5 item "weather" "main" with
  | (Except.error e, st6) => (Except.error e, st6)
  | (Except.ok wmain, st6) =>
  match pyGetListChainST st6 item "weather" "description" with
  | (Except.error e, st7) => (Except.error e, st7)
  | (Except.ok wdesc, st7) =>
  match pyGetChainST st7 item "main" "humidity" with
  | (Except.error e, st8) => (Except.error e, st8)
  | (Except.ok hum, st8) =>
  match pyGetChainST st8 item "wind" "speed" with
  | (Except.error e, st9) => (Except.error e, st9)
  | (Except.ok wind, st9) =>
  match pyGetST st9 item "dt" with
  | (Except.error e, st10) => (Except.error e, st10)
  | (Except.ok dtv, st10) =>
  match pyTimestampStrST st10 dtv with
  | (Except.error e, st11) => (Except.error e, st11)
  | (Except.ok ts, st11) =>
    (Except.ok ⟨city, country, temp, feels, wmain, wdesc, hum, wind, ts⟩, st11)

/-- The state-passing `try:` block returns the store unchanged and the
same value as the pure embedding. -/
lemma extractFieldsST_eq (data : List PyVal) (idx : Int) :
    extractFieldsST data idx = (extractFields data idx, data) := by
  cases h1 : pyListIndex data idx with
  | error e => simp only [extractFieldsST, extractFields, pyListIndexST, h1]
  | ok item =>
  cases h2 : pyGet item "name" with
  | error e =>
      simp only [extractFieldsST, extractFields, pyListIndexST, pyGetST, h1, h2]
  | ok city =>
  cases h3 : pyGetChain item "sys" "country" with
  | error e =>
      simp only [extractFieldsST, extractFields, pyListIndexST, pyGetST,
        pyGetChainST, h1, h2, h3]
  | ok country =>
  cases h4 : pyGetChain item "main" "temp" with
  | error e =>
      simp only [extractFieldsST, extractFields, pyListIndexST, pyGetST,
        pyGetChainST, h1, h2, h3, h4]
  | ok temp =>
  cases h5 : pyGetChain item "main" "feels_like" with
  | error e =>
      simp only [extractFieldsST, extractFields, pyListIndexST, pyGetST,
        pyGetChainST, h1, h2, h3, h4, h5]
  | ok feels =>
  cases h6 : pyGetListChain item "weather" "main" with
  | error e =>
      simp only [extractFieldsST, extractFields, pyListIndexST, pyGetST,
        pyGetChainST, pyGetListChainST, h1, h2, h3, h4, h5, h6]
  | ok wmain =>
  cases h7 : pyGetListChain item "weather" "description" with
  | error e =>
      simp only [extractFieldsST, extractFields, pyListIndexST, pyGetST,
        pyGetChainST, pyGetListChainST, h1, h2, h3, h4, h5, h6, h7]
  | ok wdesc =>
  cases h8 : pyGetChain item "main" "humidity" with
  | error e =>
      simp only [extractFieldsST, extractFields, pyListIndexST, pyGetST,
        pyGetChainST, pyGetListChainST, h1, h2, h3, h4, h5, h6, h7, h8]
  | ok hum =>
  cases h9 : pyGetChain item "wind" "speed" with
  | error e =>
      simp only [extractFieldsST, extractFields, pyListIndexST, pyGetST,
        pyGetChainST, pyGetListChainST, h1, h2, h3, h4, h5, h6, h7, h8, h9]
  | ok wind =>
  cases h10 : pyGet item "dt" with
  | error e =>
      simp only [extractFieldsST, extractFields, pyListIndexST, pyGetST,
        pyGetChainST, pyGetListChainST, h1, h2, h3, h4, h5, h6, h7, h8, h9, h10]
  | ok dtv =>
  cases h11 : pyTimestampStr dtv with
  | error e =>
      simp only [extractFieldsST, extractFields, pyListIndexST, pyGetST,
        pyGetChainST, pyGetListChainST, pyTimestampStrST, h1, h2, h3, h4, h5,
        h6, h7, h8, h9, h10, h11]
  | ok ts =>
      simp only [extractFieldsST, extractFields, pyListIndexST, pyGetST,
        pyGetChainST, pyGetListChainST, pyTimestampStrST, h1, h2, h3, h4, h5,
        h6, h7, h8, h9, h10, h11]

/-- `extract_required_fields` with the observation store threaded
explicitly: the reads above, then the presence check. -/
def extract_required_fields_store (st : List PyVal) (city_idx : Int) :
    ExtractResult × List PyVal :=
  match extractFieldsST st city_idx with
  | (Except.ok f, st1) =>
      if f.city.truthy && f.country.truthy && !f.temp.isNone then
        ({ record := some
             { city := f.city, country := f.country, temp_celsius := f.temp,
               feels_like_celsius := f.feels_like,
               weather_main := f.weather_main, weather_desc := f.weather_desc,
               humidity := f.humidity, wind_speed := f.wind_speed,
               timestamp_utc := f.ts },
           log := [] }, st1)
      else ({ record := Option.none, log := [missingMsg city_idx] }, st1)
  | (Except.error e, st1) =>
      ({ record := Option.none, log := [couldNotMsg e] }, st1)

/-- Claim C9: extraction only reads the observation sequence: threading
the store through every operation returns it unchanged, and the computed
result is exactly that of the pure extraction function. -/
theorem claim_C9_no_mutation (data : List PyVal) (idx : Int) :
    (extract_required_fields_store data idx).2 = data ∧
    (extract_required_fields_store data idx).1 =
      extract_required_fields data idx := by
  unfold extract_required_fields_store extract_required_fields
  rw [extractFieldsST_eq]
  cases extractFields data idx with
  | error e => exact ⟨rfl, rfl⟩
  | ok f =>
      cases hb : (f.city.truthy && f.country.truthy && !f.temp.isNone) <;>
        simp [hb]
